import Mathlib

/-!
Shallow embedding of the spatial-aggregation core of the
`hyperlocal-weather-map` repository (`src/data_processor.py`,
class `WeatherDataProcessor`): grid aggregation (`aggregate_by_grid`),
zone classification (`create_weather_zones`) and nearest-neighbor
gradient estimation (`calculate_weather_gradients`).

Modelling conventions:
* a pandas `DataFrame` of observations is a `List Row`; pandas'
  in-place column assignments (`df['grid_lat'] = ...`,
  `df['temp_zone'] = ...`, `df['temperature_gradient'] = ...`) are
  modelled by returning the post-call state of the input rows next to
  the function's nominal output;
* float values are modelled exactly: coordinates and measurements are
  rationals, and real numbers appear exactly where the code takes a
  square root (standard deviation, Euclidean distances);
* a missing value (`NaN`) is `Option.none`; a column that has not been
  materialized on a row is also `none` at the corresponding field.
-/

namespace HyperWeather

/-- Temperature zone labels produced by `create_weather_zones`
(`'Cold Zone'`, `'Moderate Zone'`, `'Warm Zone'`). -/
inductive Zone where
  | Cold
  | Moderate
  | Warm
deriving DecidableEq, Repr

/-- Python exceptions surfaced by the modelled code: pandas raises
`ValueError` from `pd.cut` bin validation. -/
inductive PyError where
  | valueError
deriving DecidableEq, Repr

/-- One observation row of the weather `DataFrame`.  The first six
fields are the input columns (coordinates always present after
`clean_weather_data`, measurements optionally missing); the last three
are the derived columns the three operations write into the frame
(`none` = column not present on this row). -/
structure Row where
  latitude : ℚ
  longitude : ℚ
  temperature : Option ℚ := none
  humidity : Option ℚ := none
  pressure : Option ℚ := none
  wind_speed : Option ℚ := none
  grid_lat : Option ℚ := none
  grid_lon : Option ℚ := none
  temp_zone : Option (Option Zone) := none
  temperature_gradient : Option (Option ℝ) := none

instance : Inhabited Row := ⟨{ latitude := 0, longitude := 0 }⟩

/-- Input-observation fields of a row (the columns the upstream data
source provided, as opposed to the derived columns). -/
def coreFields (r : Row) : ℚ × ℚ × Option ℚ × Option ℚ × Option ℚ × Option ℚ :=
  (r.latitude, r.longitude, r.temperature, r.humidity, r.pressure, r.wind_speed)

/-- Non-missing values of a pandas series (`dropna`). -/
def vals (l : List (Option ℚ)) : List ℚ := l.filterMap id

/-- pandas `Series.mean()`: skip missing values, `NaN` on an empty or
all-missing series. -/
def seriesMean (l : List (Option ℚ)) : Option ℚ :=
  if (vals l).length = 0 then none else some ((vals l).sum / (vals l).length)

/-- pandas `Series.min()`: skip missing values. -/
def seriesMin (l : List (Option ℚ)) : Option ℚ := (vals l).min?

/-- pandas `Series.max()`: skip missing values. -/
def seriesMax (l : List (Option ℚ)) : Option ℚ := (vals l).max?

/-- pandas `Series.count()`: number of non-missing entries. -/
def seriesCount (l : List (Option ℚ)) : ℕ := (vals l).length

/-- One float grid coordinate: `(x // grid_size) * grid_size` with
Python's true floor division (toward minus infinity). -/
def gridCoord (g x : ℚ) : ℚ := ⌊x / g⌋ * g

/-- Grid-cell key of an observation, as computed into the `grid_lat`
and `grid_lon` columns by `aggregate_by_grid`. -/
def gridKey (g : ℚ) (r : Row) : ℚ × ℚ := (gridCoord g r.latitude, gridCoord g r.longitude)

/-- One aggregated grid cell (a row of the `GeoDataFrame` returned by
`aggregate_by_grid`, with the flattened column names of the code). -/
structure GridCell where
  grid_lat : ℚ
  grid_lon : ℚ
  temp_mean : Option ℚ
  temp_min : Option ℚ
  temp_max : Option ℚ
  station_count : ℕ
  humidity_mean : Option ℚ
  pressure_mean : Option ℚ
  wind_speed_mean : Option ℚ
deriving DecidableEq, Repr

/-- The aggregated cell of key `k`: the pandas `groupby` group of all
rows whose grid key is `k`, aggregated per column.  `station_count`
comes from `'temperature': 'count'`, hence counts non-missing
temperatures. -/
def mkCell (df : List Row) (g : ℚ) (k : ℚ × ℚ) : GridCell :=
  { grid_lat := k.1
    grid_lon := k.2
    temp_mean := seriesMean ((df.filter (fun r => gridKey g r = k)).map (·.temperature))
    temp_min := seriesMin ((df.filter (fun r => gridKey g r = k)).map (·.temperature))
    temp_max := seriesMax ((df.filter (fun r => gridKey g r = k)).map (·.temperature))
    station_count := seriesCount ((df.filter (fun r => gridKey g r = k)).map (·.temperature))
    humidity_mean := seriesMean ((df.filter (fun r => gridKey g r = k)).map (·.humidity))
    pressure_mean := seriesMean ((df.filter (fun r => gridKey g r = k)).map (·.pressure))
    wind_speed_mean := seriesMean ((df.filter (fun r => gridKey g r = k)).map (·.wind_speed)) }

/-- `WeatherDataProcessor.aggregate_by_grid`.  On an empty frame it
returns an empty `GeoDataFrame` without touching the input.  Otherwise
it writes the `grid_lat`/`grid_lon` columns into the input frame
(first component: the input's post-call state) and groups by them,
emitting one cell per distinct key (second component). -/
def aggregate_by_grid (df : List Row) (g : ℚ) : List Row × List GridCell :=
  if df.isEmpty then (df, [])
  else
    (df.map (fun r =>
        { r with grid_lat := some (gridCoord g r.latitude)
                 grid_lon := some (gridCoord g r.longitude) }),
     ((df.map (gridKey g)).dedup).map (mkCell df g))

/-- Number of grid cells produced for a batch at a given grid size. -/
def numCells (df : List Row) (g : ℚ) : ℕ := (aggregate_by_grid df g).2.length

/-- The non-missing temperatures of a batch. -/
def tempVals (df : List Row) : List ℚ := (df.map (·.temperature)).filterMap id

/-- Number of temperature-bearing observations of a batch. -/
def tempCount (df : List Row) : ℕ := (tempVals df).length

/-- pandas `df['temperature'].mean()` (meaningful when at least one
temperature is present; `create_weather_zones` only consumes it in
that situation). -/
def tempMeanQ (df : List Row) : ℚ := (tempVals df).sum / (tempCount df)

/-- pandas `df['temperature'].std()` squared: the sample variance with
`ddof = 1` over the non-missing temperatures, `NaN` (`none`) when
fewer than 2 are present. -/
def tempVarQ (df : List Row) : Option ℚ :=
  if 2 ≤ tempCount df then
    some (((tempVals df).map (fun x => (x - tempMeanQ df) ^ 2)).sum / ((tempCount df : ℚ) - 1))
  else none

/-- pandas `df['temperature'].std()` on a batch where it is defined. -/
noncomputable def tempStdR (df : List Row) : ℝ := Real.sqrt (((tempVarQ df).getD 0 : ℚ) : ℝ)

/-- Lower bin edge `temp_mean - temp_std` of the zone cut. -/
noncomputable def zoneLower (df : List Row) : ℝ := ((tempMeanQ df : ℚ) : ℝ) - tempStdR df

/-- Upper bin edge `temp_mean + temp_std` of the zone cut. -/
noncomputable def zoneUpper (df : List Row) : ℝ := ((tempMeanQ df : ℚ) : ℝ) + tempStdR df

open Classical in
/-- `pd.cut(·, bins=[-inf, a, b, inf], labels=[Cold, Moderate, Warm])`
for valid (strictly increasing) bins: right-closed intervals
`(-inf, a]`, `(a, b]`, `(b, inf)`; a missing value is not binned. -/
noncomputable def cutZone (a b : ℝ) (t : Option ℚ) : Option Zone :=
  match t with
  | none => none
  | some t =>
      if ((t : ℚ) : ℝ) ≤ a then some Zone.Cold
      else if ((t : ℚ) : ℝ) ≤ b then some Zone.Moderate
      else some Zone.Warm

/-- Zone assigned to one temperature by `create_weather_zones` on a
batch whose bins validate. -/
noncomputable def assignZone (df : List Row) (t : Option ℚ) : Option Zone :=
  cutZone (zoneLower df) (zoneUpper df) t

/-- One row of the zones `GeoDataFrame` (flattened column names of the
code). -/
structure ZoneRow where
  zone : Zone
  lat_mean : ℚ
  station_count : ℕ
  lon_mean : ℚ
  temp_mean : Option ℚ
  temp_min : Option ℚ
  temp_max : Option ℚ
  humidity_mean : Option ℚ
  pressure_mean : Option ℚ

/-- The rows of a zoned frame carrying a given zone label. -/
def zoneGroup (df2 : List Row) (z : Zone) : List Row :=
  df2.filter (fun r => decide (r.temp_zone = some (some z)))

/-- Aggregate row of one zone group (`latitude: mean/count`,
`longitude: mean`, `temperature: mean/min/max`, `humidity: mean`,
`pressure: mean`). -/
def mkZoneRow (z : Zone) (grp : List Row) : ZoneRow :=
  { zone := z
    lat_mean := (grp.map (·.latitude)).sum / grp.length
    station_count := grp.length
    lon_mean := (grp.map (·.longitude)).sum / grp.length
    temp_mean := seriesMean (grp.map (·.temperature))
    temp_min := seriesMin (grp.map (·.temperature))
    temp_max := seriesMax (grp.map (·.temperature))
    humidity_mean := seriesMean (grp.map (·.humidity))
    pressure_mean := seriesMean (grp.map (·.pressure)) }

/-- `df.groupby('temp_zone', observed=True)` aggregation: one output
row per zone label that actually occurs (rows with an unassigned zone
are dropped by `groupby`), in categorical label order. -/
def zoneTable (df2 : List Row) : List ZoneRow :=
  (([Zone.Cold, Zone.Moderate, Zone.Warm].filter
      (fun z => !(zoneGroup df2 z).isEmpty)).map
    (fun z => mkZoneRow z (zoneGroup df2 z)))

/-- Post-state and zone table of a successful `create_weather_zones`
call: the `temp_zone` column is written into the input frame and the
zone groups are aggregated. -/
noncomputable def czwSuccess (df : List Row) : List Row × List ZoneRow :=
  (df.map (fun r => { r with temp_zone := some (assignZone df r.temperature) }),
   zoneTable (df.map (fun r => { r with temp_zone := some (assignZone df r.temperature) })))

/-- `WeatherDataProcessor.create_weather_zones`.  An empty frame
returns an empty `GeoDataFrame` with no error.  Otherwise the bins
`[-inf, mean - std, mean + std, inf]` are handed to `pd.cut`, whose
validation raises `ValueError` when edges repeat: that happens exactly
when `std` is `NaN` (fewer than 2 non-missing temperatures, so the two
middle edges are both `NaN`) or `std = 0` (the two middle edges
coincide).  The diff-based monotonicity check never fires, since for a
real `std` the only finite edge difference is `2*std ≥ 0` and `NaN`
differences do not compare below zero.  On success the `temp_zone`
column is written into the input frame and the zone groups are
aggregated. -/
noncomputable def create_weather_zones (df : List Row) :
    Except PyError (List Row × List ZoneRow) :=
  if df.isEmpty then .ok (df, [])
  else
    match tempVarQ df with
    | none => .error .valueError
    | some v => if v = 0 then .error .valueError else .ok (czwSuccess df)

/-- Row `i` of a frame (`df.iloc[i]`). -/
def rowAt (df : List Row) (i : ℕ) : Row := df.getD i default

/-- Euclidean distance between two observations in raw degree space
(`scipy.spatial.distance.cdist(..., metric='euclidean')`). -/
noncomputable def distR (r s : Row) : ℝ :=
  Real.sqrt (((r.latitude - s.latitude : ℚ) : ℝ) ^ 2 + ((r.longitude - s.longitude : ℚ) : ℝ) ^ 2)

/-- Entry `(i, j)` of the distance matrix of a batch. -/
noncomputable def distRow (df : List Row) (i j : ℕ) : ℝ := distR (rowAt df i) (rowAt df j)

open Classical in
/-- Stable insertion of an index into a distance-sorted index list
(ties broken by index, a deterministic rendering of `np.argsort`). -/
noncomputable def sortedInsert (d : ℕ → ℝ) (j : ℕ) : List ℕ → List ℕ
  | [] => [j]
  | k :: rest =>
      if d j < d k ∨ (d j = d k ∧ j ≤ k) then j :: k :: rest
      else k :: sortedInsert d j rest

/-- `np.argsort` over a list of indices, by insertion sort. -/
noncomputable def argsortIdx (d : ℕ → ℝ) (l : List ℕ) : List ℕ :=
  l.foldr (sortedInsert d) []

/-- `np.argsort(distances[i])[1:4]`: drop the closest entry of the
sorted row (the observation itself) and keep the next three. -/
noncomputable def neighbors (df : List Row) (i : ℕ) : List ℕ :=
  ((argsortIdx (distRow df i) (List.range df.length)).drop 1).take 3

/-- `distances[i][nearest_indices].mean()`. -/
noncomputable def meanDist (df : List Row) (i : ℕ) : ℝ :=
  ((neighbors df i).map (distRow df i)).sum / ((neighbors df i).length : ℝ)

/-- `df.iloc[nearest_indices]['temperature'].mean()`: missing-skipping
mean of the neighbor temperatures, `NaN` when all are missing. -/
noncomputable def nbrTempMean (df : List Row) (i : ℕ) : Option ℚ :=
  seriesMean ((neighbors df i).map (fun j => (rowAt df j).temperature))

/-- `temp_diff`: own temperature minus neighbor mean; `NaN` (`none`)
as soon as either side is missing. -/
noncomputable def tempDiff (df : List Row) (i : ℕ) : Option ℚ :=
  (rowAt df i).temperature.bind (fun t => (nbrTempMean df i).map (fun m => t - m))

open Classical in
/-- The gradient appended for observation `i`:
`temp_diff / distance if distance > 0 else 0`, and `0` outright when
the neighbor slice is empty.  A `NaN` `temp_diff` propagates through
the division (`none`); the zero-distance guard yields the literal
`0`. -/
noncomputable def gradVal (df : List Row) (i : ℕ) : Option ℝ :=
  if (neighbors df i).isEmpty then some 0
  else if 0 < meanDist df i then
    (tempDiff df i).map (fun q => ((q : ℚ) : ℝ) / meanDist df i)
  else some 0

/-- `WeatherDataProcessor.calculate_weather_gradients`.  A frame with
fewer than 2 rows is returned unchanged (no gradient column).
Otherwise the `temperature_gradient` column is written into the frame
(which the function also returns). -/
noncomputable def calculate_weather_gradients (df : List Row) : List Row :=
  if df.length < 2 then df
  else df.enum.map (fun p => { p.2 with temperature_gradient := some (gradVal df p.1) })

/-- Convenience constructor for an observation row. -/
def exRow (lat lon : ℚ) (t : Option ℚ) : Row :=
  { latitude := lat, longitude := lon, temperature := t }

/-- Batch holding the spec's negative-coordinate example. -/
def wGrid : List Row := [exRow (-74005/1000) (5/2) none]

/-- Batch with two co-located rows, one of them missing its temperature. -/
def dfCount : List Row := [exRow 0 0 (some 5), exRow 0 0 none]

/-- Batch with temperatures `[0, 0, 2, 4, 4]`: mean `2`, sample
variance `4`, sample std `2`, zone bin edges exactly `0` and `4`. -/
def exBoundary : List Row :=
  [exRow 0 0 (some 0), exRow 0 0 (some 0), exRow 0 0 (some 2),
   exRow 0 0 (some 4), exRow 0 0 (some 4)]

/-- The spec's example batch with temperatures `[10, 20, 30, 40, 50]`. -/
def exFive : List Row :=
  [exRow 0 0 (some 10), exRow 0 0 (some 20), exRow 0 0 (some 30),
   exRow 0 0 (some 40), exRow 0 0 (some 50)]

/-- A single observation row. -/
def rSingle : Row := exRow 1 2 (some 20)

/-- Two coincident observations with different temperatures. -/
def wCoincident : List Row := [exRow 0 0 (some 5), exRow 0 0 (some 10)]

/-- Batch whose two rows share the size-1 grid cell `[1, 2)` but land
in different cells of the coarser size-3/2 grid. -/
def dfMono : List Row := [exRow (11/10) 0 none, exRow (19/10) 0 none]

/-- Two co-located temperature-bearing rows (variance 2). -/
def dfPure : List Row := [exRow 1 2 (some 3), exRow 1 2 (some 5)]

/-- A row with missing temperature one degree away from a
temperature-bearing row. -/
def wMissing : List Row := [exRow 0 0 none, exRow 0 1 (some 7)]

/-- A single temperature-bearing observation. -/
def dfOne : List Row := [exRow 0 0 (some 7)]

theorem length_filterMap_id (l : List (Option ℚ)) :
    (l.filterMap id).length = l.countP (fun o => o.isSome) := by
  induction l with
  | nil => rfl
  | cons h t ih => cases h <;> simp [List.filterMap_cons, List.countP_cons, ih]

theorem isEmpty_false_of_ne_nil {α : Type} {l : List α} (h : l ≠ []) : l.isEmpty = false := by
  cases l with
  | nil => exact absurd rfl h
  | cons a t => rfl

/-- C1: the spec says zone classification with fewer than 2
temperature-bearing observations (including an empty batch) raises
`InsufficientDataError`.  The code has no such exception: an empty
batch silently returns an empty frame, and a non-empty batch with
fewer than 2 non-missing temperatures fails with pandas' generic
`ValueError` from bin validation (amended claim proved here). -/
theorem spec_C1_amended :
    create_weather_zones ([] : List Row) = .ok ([], []) ∧
    ∀ df : List Row, df ≠ [] → tempCount df < 2 →
      create_weather_zones df = .error .valueError := by
  refine ⟨by simp [create_weather_zones], ?_⟩
  intro df hne hc
  have hv : tempVarQ df = none := by
    unfold tempVarQ
    rw [if_neg (by omega)]
  rw [create_weather_zones, if_neg (by simp [isEmpty_false_of_ne_nil hne]), hv]

/-- C1 counterexample: on the empty batch `create_weather_zones`
returns an empty result with no error, while the claim says it
fails. -/
theorem spec_C1_cex :
    create_weather_zones ([] : List Row) = .ok ([], []) ∧
    create_weather_zones ([] : List Row) ≠ .error .valueError := by
  refine ⟨by simp [create_weather_zones], ?_⟩
  intro h
  simp [create_weather_zones] at h

/-- C1 witness: a singleton temperature-bearing batch is non-empty,
has fewer than 2 non-missing temperatures and raises `ValueError`. -/
theorem spec_C1_witness :
    dfOne ≠ [] ∧ tempCount dfOne < 2 ∧
      create_weather_zones dfOne = .error .valueError := by
  refine ⟨by simp [dfOne], by decide, ?_⟩
  exact spec_C1_amended.2 dfOne (by simp [dfOne]) (by decide)

/-- C2: grid aggregation keys every observation by
`(floor(lat/grid_size)*grid_size, floor(lon/grid_size)*grid_size)`
with true floor division, and `-74.005` at grid size `0.01` is keyed
to `-74.01`. -/
theorem spec_C2 :
    (∀ (df : List Row) (g : ℚ), 0 < g →
      (aggregate_by_grid df g).1.map (fun r => (r.grid_lat, r.grid_lon)) =
        df.map (fun r =>
          (some (⌊r.latitude / g⌋ * g), some (⌊r.longitude / g⌋ * g)))) ∧
    gridCoord (1/100) (-74005/1000) = -7401/100 := by
  constructor
  · intro df g _
    by_cases h : df.isEmpty
    · rw [List.isEmpty_iff.mp h]
      simp [aggregate_by_grid]
    · simp only [aggregate_by_grid, h, Bool.false_eq_true, if_false, List.map_map]
      apply List.map_congr_left
      intro r _
      rfl
  · have hf : ⌊(-74005/1000 : ℚ) / (1/100)⌋ = -7401 := by
      rw [Int.floor_eq_iff]
      constructor <;> norm_num
    unfold gridCoord
    rw [hf]
    norm_num

/-- C2 witness: the key formula instantiated on the concrete
`-74.005` batch at grid size `0.01`. -/
theorem spec_C2_witness :
    (0 < (1/100 : ℚ)) ∧
    (aggregate_by_grid wGrid (1/100)).1.map (fun r => (r.grid_lat, r.grid_lon)) =
      wGrid.map (fun r =>
        (some ((⌊r.latitude / (1/100 : ℚ)⌋ : ℚ) * (1/100 : ℚ)),
         some ((⌊r.longitude / (1/100 : ℚ)⌋ : ℚ) * (1/100 : ℚ)))) :=
  ⟨by norm_num, spec_C2.1 wGrid (1/100) (by norm_num)⟩

/-- C6: the spec says a singleton batch comes back with a temperature
gradient of exactly 0.  The code's early return hands the frame back
untouched: no `temperature_gradient` column exists on the output
(amended claim proved here, for every frame shorter than 2 rows). -/
theorem spec_C6_amended :
    ∀ df : List Row, df.length < 2 → calculate_weather_gradients df = df := by
  intro df h
  unfold calculate_weather_gradients
  rw [if_pos h]

/-- C6 counterexample: for a concrete singleton batch the output row
carries no gradient column at all, not a gradient of 0. -/
theorem spec_C6_cex :
    (calculate_weather_gradients [rSingle]).map (·.temperature_gradient) = [none] ∧
    (calculate_weather_gradients [rSingle]).map (·.temperature_gradient) ≠
      [some (some (0 : ℝ))] := by
  have h : calculate_weather_gradients [rSingle] = [rSingle] := by
    unfold calculate_weather_gradients
    rw [if_pos (by simp)]
  rw [h]
  constructor
  · rfl
  · simp [rSingle, exRow]

/-- C6 witness: the amended early-return behaviour on the concrete
singleton batch. -/
theorem spec_C6_witness :
    ([rSingle] : List Row).length < 2 ∧
      calculate_weather_gradients [rSingle] = [rSingle] :=
  ⟨by simp, spec_C6_amended [rSingle] (by simp)⟩

/-- C3: the spec says a cell's `count` equals the number of input
observations keyed to that cell.  The code aggregates
`'temperature': 'count'`, so `station_count` is the number of
observations in the cell bearing a non-missing temperature (amended
claim proved here). -/
theorem spec_C3_amended :
    ∀ (df : List Row) (g : ℚ) (c : GridCell), c ∈ (aggregate_by_grid df g).2 →
      c.station_count =
        (df.filter (fun r => gridKey g r = (c.grid_lat, c.grid_lon))).countP
          (fun r => r.temperature.isSome) := by
  intro df g c hc
  by_cases h : df.isEmpty
  · rw [aggregate_by_grid, if_pos h] at hc
    simp at hc
  · rw [aggregate_by_grid, if_neg (by simp [h])] at hc
    obtain ⟨k, _, rfl⟩ := List.mem_map.mp hc
    show seriesCount _ = _
    rw [seriesCount, vals, length_filterMap_id, List.countP_map]
    rfl

theorem dfCount_filter_all :
    dfCount.filter (fun r => gridKey 1 r = ((0 : ℚ), (0 : ℚ))) = dfCount := by
  apply List.filter_eq_self.mpr
  intro a ha
  rw [decide_eq_true_eq]
  simp only [dfCount, List.mem_cons, List.not_mem_nil, or_false] at ha
  rcases ha with rfl | rfl <;> simp [gridKey, gridCoord, exRow]

theorem dfCount_cells :
    (aggregate_by_grid dfCount 1).2 = [mkCell dfCount 1 (0, 0)] := by
  rw [aggregate_by_grid, if_neg (by simp [dfCount])]
  have hmap : dfCount.map (gridKey 1) = [((0 : ℚ), (0 : ℚ)), ((0 : ℚ), (0 : ℚ))] := by
    simp [dfCount, exRow, gridKey, gridCoord]
  rw [hmap]
  rfl

/-- C3 counterexample: two co-located observations, one with a missing
temperature, yield a single cell whose `station_count` is 1, while 2
observations are keyed to that cell. -/
theorem spec_C3_cex :
    (aggregate_by_grid dfCount 1).2.map (·.station_count) = [1] ∧
    (dfCount.filter (fun r => gridKey 1 r = ((0 : ℚ), (0 : ℚ)))).length = 2 := by
  constructor
  · rw [dfCount_cells]
    show [seriesCount ((dfCount.filter
      (fun r => gridKey 1 r = ((0 : ℚ), (0 : ℚ)))).map (·.temperature))] = [1]
    rw [dfCount_filter_all]
    rfl
  · rw [dfCount_filter_all]
    rfl

/-- C3 witness: the amended count characterization applied to the
concrete cell of the mixed batch. -/
theorem spec_C3_witness :
    mkCell dfCount 1 (0, 0) ∈ (aggregate_by_grid dfCount 1).2 ∧
    (mkCell dfCount 1 (0, 0)).station_count =
      (dfCount.filter (fun r =>
          gridKey 1 r = ((mkCell dfCount 1 (0, 0)).grid_lat,
                         (mkCell dfCount 1 (0, 0)).grid_lon))).countP
        (fun r => r.temperature.isSome) := by
  have hmem : mkCell dfCount 1 (0, 0) ∈ (aggregate_by_grid dfCount 1).2 := by
    rw [dfCount_cells]
    exact List.mem_singleton.mpr rfl
  exact ⟨hmem, spec_C3_amended dfCount 1 _ hmem⟩

/-- C9: the spec says each operation leaves its input batch unchanged
with all output freshly allocated.  In fact every operation writes its
derived column into the input frame in place (`grid_lat`/`grid_lon`,
`temp_zone`, `temperature_gradient`), and the gradient function
returns that same frame; what does hold is that the original
observation columns are preserved (amended claim proved here). -/
theorem spec_C9_amended :
    ∀ (df : List Row) (g : ℚ),
      (aggregate_by_grid df g).1.map coreFields = df.map coreFields ∧
      (calculate_weather_gradients df).map coreFields = df.map coreFields ∧
      ∀ p, create_weather_zones df = .ok p →
        p.1.map coreFields = df.map coreFields := by
  intro df g
  refine ⟨?_, ?_, ?_⟩
  · by_cases h : df.isEmpty
    · rw [aggregate_by_grid, if_pos h]
    · rw [aggregate_by_grid, if_neg (by simp [h])]
      simp only [List.map_map]
      apply List.map_congr_left
      intro r _
      rfl
  · by_cases h : df.length < 2
    · rw [calculate_weather_gradients, if_pos h]
    · rw [calculate_weather_gradients, if_neg h]
      simp only [List.map_map]
      have hcomp : (coreFields ∘ fun p : ℕ × Row =>
          { p.2 with temperature_gradient := some (gradVal df p.1) }) =
          (coreFields ∘ Prod.snd) := by
        funext p
        rfl
      rw [hcomp, ← List.map_map, List.enum_map_snd]
  · intro p hp
    by_cases h : df.isEmpty
    · rw [create_weather_zones, if_pos h] at hp
      cases hp
      rfl
    · rw [create_weather_zones, if_neg (by simp [h])] at hp
      split at hp
      · cases hp
      · split at hp
        · cases hp
        · cases hp
          simp only [czwSuccess, List.map_map]
          apply List.map_congr_left
          intro r _
          rfl

/-- C9 counterexample: aggregation writes the `grid_lat` column into
the caller's frame, so the input batch is not left unchanged. -/
theorem spec_C9_cex :
    (aggregate_by_grid dfPure 1).1.map (·.grid_lat) = [some 1, some 1] ∧
    dfPure.map (·.grid_lat) = [none, none] ∧
    (aggregate_by_grid dfPure 1).1 ≠ dfPure := by
  have h1 : (aggregate_by_grid dfPure 1).1.map (·.grid_lat) = [some 1, some 1] := by
    rw [aggregate_by_grid, if_neg (by simp [dfPure])]
    simp [dfPure, exRow, gridCoord]
  refine ⟨h1, by simp [dfPure, exRow], ?_⟩
  intro h
  rw [h] at h1
  simp [dfPure, exRow] at h1

theorem dfPure_var : tempVarQ dfPure = some 2 := by
  have hvals : tempVals dfPure = [3, 5] := rfl
  have hc : tempCount dfPure = 2 := by
    rw [tempCount, hvals]
    rfl
  have hm : tempMeanQ dfPure = 4 := by
    rw [tempMeanQ, hvals, hc]
    norm_num
  rw [tempVarQ, if_pos (by rw [hc]), hvals, hc, hm]
  norm_num

/-- C9 witness: the preserved-core-columns statement applied to a
concrete batch, with the zone hypothesis discharged on the actual
(successful) run of `create_weather_zones`. -/
theorem spec_C9_witness :
    create_weather_zones dfPure = .ok (czwSuccess dfPure) ∧
    (czwSuccess dfPure).1.map coreFields = dfPure.map coreFields := by
  have hok : create_weather_zones dfPure = .ok (czwSuccess dfPure) := by
    rw [create_weather_zones, if_neg (by simp [dfPure]), dfPure_var]
    show (if (2 : ℚ) = 0 then Except.error PyError.valueError
          else Except.ok (czwSuccess dfPure)) = Except.ok (czwSuccess dfPure)
    rw [if_neg (by norm_num)]
  exact ⟨hok, (spec_C9_amended dfPure 1).2.2 (czwSuccess dfPure) hok⟩

theorem floor_div_nat_floor (y : ℚ) (k : ℕ) (hk : 0 < k) :
    ⌊y / (k : ℚ)⌋ = ⌊((⌊y⌋ : ℚ)) / (k : ℚ)⌋ := by
  have hk' : (0 : ℚ) < (k : ℚ) := by exact_mod_cast hk
  apply le_antisymm
  · rw [Int.le_floor, le_div_iff₀ hk']
    have h1 : ((⌊y / (k : ℚ)⌋ : ℚ)) * (k : ℚ) ≤ y := by
      calc ((⌊y / (k : ℚ)⌋ : ℚ)) * (k : ℚ)
          ≤ (y / (k : ℚ)) * (k : ℚ) :=
            mul_le_mul_of_nonneg_right (Int.floor_le _) (le_of_lt hk')
        _ = y := div_mul_cancel₀ y (ne_of_gt hk')
    have h2 : (⌊y / (k : ℚ)⌋ * (k : ℤ) : ℤ) ≤ ⌊y⌋ := by
      rw [Int.le_floor]
      push_cast
      exact h1
    exact_mod_cast h2
  · rw [Int.le_floor, le_div_iff₀ hk']
    calc ((⌊((⌊y⌋ : ℚ)) / (k : ℚ)⌋ : ℚ)) * (k : ℚ)
        ≤ (((⌊y⌋ : ℚ)) / (k : ℚ)) * (k : ℚ) :=
          mul_le_mul_of_nonneg_right (Int.floor_le _) (le_of_lt hk')
      _ = ((⌊y⌋ : ℚ)) := div_mul_cancel₀ _ (ne_of_gt hk')
      _ ≤ y := Int.floor_le y

theorem gridCoord_nat_mul (s : ℚ) (k : ℕ) (hs : s ≠ 0) (hk : 0 < k) (x : ℚ) :
    gridCoord ((k : ℚ) * s) x =
      (⌊(gridCoord s x) / s / (k : ℚ)⌋ : ℚ) * ((k : ℚ) * s) := by
  unfold gridCoord
  rw [mul_div_assoc, div_self hs, mul_one]
  congr 2
  rw [mul_comm (k : ℚ) s, ← div_div]
  exact floor_div_nat_floor (x / s) k hk

theorem numCells_eq_card (df : List Row) (g : ℚ) :
    numCells df g = (df.map (gridKey g)).toFinset.card := by
  by_cases h : df.isEmpty
  · rw [List.isEmpty_iff.mp h]
    rfl
  · rw [numCells, aggregate_by_grid, if_neg (by simp [h])]
    rw [List.length_map, List.card_toFinset]

/-- C8: the spec says the cell count is monotonically non-increasing
in `grid_size`.  That fails for incommensurable sizes (a coarser grid
whose lines cut through a finer cell can split its population); it
holds when the coarser size is an integer multiple of the finer one
(amended claim proved here). -/
theorem spec_C8_amended :
    ∀ (df : List Row) (s : ℚ) (k : ℕ), 0 < s → 0 < k →
      numCells df ((k : ℚ) * s) ≤ numCells df s := by
  intro df s k hs hk
  rw [numCells_eq_card, numCells_eq_card]
  have hfun : df.map (gridKey ((k : ℚ) * s)) =
      (df.map (gridKey s)).map (fun p =>
        ((⌊p.1 / s / (k : ℚ)⌋ : ℚ) * ((k : ℚ) * s),
         (⌊p.2 / s / (k : ℚ)⌋ : ℚ) * ((k : ℚ) * s))) := by
    rw [List.map_map]
    apply List.map_congr_left
    intro r _
    simp only [Function.comp_apply]
    unfold gridKey
    rw [gridCoord_nat_mul s k (ne_of_gt hs) hk r.latitude,
        gridCoord_nat_mul s k (ne_of_gt hs) hk r.longitude]
  rw [hfun]
  have himg : ((df.map (gridKey s)).map (fun p =>
      ((⌊p.1 / s / (k : ℚ)⌋ : ℚ) * ((k : ℚ) * s),
       (⌊p.2 / s / (k : ℚ)⌋ : ℚ) * ((k : ℚ) * s)))).toFinset =
      (df.map (gridKey s)).toFinset.image (fun p =>
      ((⌊p.1 / s / (k : ℚ)⌋ : ℚ) * ((k : ℚ) * s),
       (⌊p.2 / s / (k : ℚ)⌋ : ℚ) * ((k : ℚ) * s))) := by
    ext b
    simp
  rw [himg]
  exact Finset.card_image_le

theorem dfMono_keys_one :
    dfMono.map (gridKey 1) = [((1 : ℚ), (0 : ℚ)), ((1 : ℚ), (0 : ℚ))] := by
  have ha : gridCoord 1 (11/10) = 1 := by
    rw [gridCoord, show ⌊(11/10 : ℚ) / 1⌋ = 1 from by rw [Int.floor_eq_iff]; norm_num]
    norm_num
  have hb : gridCoord 1 (19/10) = 1 := by
    rw [gridCoord, show ⌊(19/10 : ℚ) / 1⌋ = 1 from by rw [Int.floor_eq_iff]; norm_num]
    norm_num
  have h0 : gridCoord 1 0 = 0 := by
    rw [gridCoord, show ⌊(0 : ℚ) / 1⌋ = 0 from by rw [Int.floor_eq_iff]; norm_num]
    norm_num
  simp [dfMono, exRow, gridKey, ha, hb, h0]

theorem dfMono_keys_coarse :
    dfMono.map (gridKey (3/2)) = [((0 : ℚ), (0 : ℚ)), ((3/2 : ℚ), (0 : ℚ))] := by
  have ha : gridCoord (3/2) (11/10) = 0 := by
    rw [gridCoord, show ⌊(11/10 : ℚ) / (3/2)⌋ = 0 from by rw [Int.floor_eq_iff]; norm_num]
    norm_num
  have hb : gridCoord (3/2) (19/10) = 3/2 := by
    rw [gridCoord, show ⌊(19/10 : ℚ) / (3/2)⌋ = 1 from by rw [Int.floor_eq_iff]; norm_num]
    norm_num
  have h0 : gridCoord (3/2) 0 = 0 := by
    rw [gridCoord, show ⌊(0 : ℚ) / (3/2)⌋ = 0 from by rw [Int.floor_eq_iff]; norm_num]
    norm_num
  simp [dfMono, exRow, gridKey, ha, hb, h0]

/-- C8 counterexample: a fixed two-point batch has 1 cell at grid size
1 but 2 cells at the larger grid size 3/2, so the count is not
monotonically non-increasing over all size pairs. -/
theorem spec_C8_cex :
    (1 : ℚ) ≤ 3/2 ∧ numCells dfMono 1 < numCells dfMono (3/2) := by
  refine ⟨by norm_num, ?_⟩
  have ha : numCells dfMono 1 = 1 := by
    rw [numCells, aggregate_by_grid, if_neg (by simp [dfMono]), dfMono_keys_one]
    rw [List.length_map, List.dedup_cons_of_mem (by simp)]
    rfl
  have hb : numCells dfMono (3/2) = 2 := by
    rw [numCells, aggregate_by_grid, if_neg (by simp [dfMono]), dfMono_keys_coarse]
    rw [List.length_map]
    have hnd : ([((0 : ℚ), (0 : ℚ)), ((3/2 : ℚ), (0 : ℚ))]).Nodup := by
      simp [Prod.ext_iff]
      norm_num
    rw [List.dedup_eq_self.mpr hnd]
    rfl
  rw [ha, hb]
  norm_num

/-- C8 witness: the integer-multiple monotonicity instantiated at the
concrete batch with sizes 1 and 2. -/
theorem spec_C8_witness :
    (0 : ℚ) < 1 ∧ 0 < 2 ∧ numCells dfMono (((2 : ℕ) : ℚ) * 1) ≤ numCells dfMono 1 :=
  ⟨by norm_num, by norm_num, spec_C8_amended dfMono 1 2 (by norm_num) (by norm_num)⟩

theorem zoneLower_le_zoneUpper (df : List Row) : zoneLower df ≤ zoneUpper df := by
  unfold zoneLower zoneUpper tempStdR
  linarith [Real.sqrt_nonneg ((((tempVarQ df).getD 0 : ℚ)) : ℝ)]

open Classical in
theorem cutZone_some (a b : ℝ) (t : ℚ) :
    cutZone a b (some t) =
      if ((t : ℚ) : ℝ) ≤ a then some Zone.Cold
      else if ((t : ℚ) : ℝ) ≤ b then some Zone.Moderate
      else some Zone.Warm := rfl

/-- C4: the spec says Cold is `temp < mean - std` strictly and
Moderate includes both endpoints of `[mean - std, mean + std]`.
`pd.cut` bins are right-closed, so a temperature exactly equal to
`mean - std` is assigned Cold, not Moderate: the correct boundaries
are Cold `temp ≤ mean - std`, Moderate `mean - std < temp ≤ mean + std`,
Warm `temp > mean + std` (amended claim proved here). -/
theorem spec_C4_amended :
    ∀ (df : List Row) (v : ℚ), tempVarQ df = some v → v ≠ 0 → df ≠ [] →
      create_weather_zones df = .ok (czwSuccess df) ∧
      ∀ t : ℚ,
        (assignZone df (some t) = some Zone.Cold ↔ ((t : ℚ) : ℝ) ≤ zoneLower df) ∧
        (assignZone df (some t) = some Zone.Moderate ↔
          zoneLower df < ((t : ℚ) : ℝ) ∧ ((t : ℚ) : ℝ) ≤ zoneUpper df) ∧
        (assignZone df (some t) = some Zone.Warm ↔ zoneUpper df < ((t : ℚ) : ℝ)) := by
  intro df v hv hv0 hne
  constructor
  · rw [create_weather_zones, if_neg (by simp [isEmpty_false_of_ne_nil hne]), hv]
    show (if v = 0 then Except.error PyError.valueError
          else Except.ok (czwSuccess df)) = Except.ok (czwSuccess df)
    rw [if_neg hv0]
  · intro t
    have hlu : zoneLower df ≤ zoneUpper df := zoneLower_le_zoneUpper df
    unfold assignZone
    rw [cutZone_some]
    split_ifs with h1 h2
    · exact ⟨iff_of_true rfl h1,
        iff_of_false (by simp) (fun hc => absurd h1 (not_le.mpr hc.1)),
        iff_of_false (by simp) (fun hc => absurd h1 (not_le.mpr (lt_of_le_of_lt hlu hc)))⟩
    · exact ⟨iff_of_false (by simp) h1,
        iff_of_true rfl ⟨not_le.mp h1, h2⟩,
        iff_of_false (by simp) (fun hc => absurd h2 (not_le.mpr hc))⟩
    · exact ⟨iff_of_false (by simp) (fun hc => h2 (le_trans hc hlu)),
        iff_of_false (by simp) (fun hc => h2 hc.2),
        iff_of_true rfl (not_le.mp h2)⟩

theorem exBoundary_var : tempVarQ exBoundary = some 4 := by
  have hvals : tempVals exBoundary = [0, 0, 2, 4, 4] := rfl
  have hc : tempCount exBoundary = 5 := by
    rw [tempCount, hvals]
    rfl
  have hm : tempMeanQ exBoundary = 2 := by
    rw [tempMeanQ, hvals, hc]
    norm_num
  rw [tempVarQ, if_pos (by rw [hc]; norm_num), hvals, hc, hm]
  norm_num

theorem exBoundary_std : tempStdR exBoundary = 2 := by
  rw [tempStdR, exBoundary_var]
  simp only [Option.getD_some]
  rw [show (((4 : ℚ)) : ℝ) = (2 : ℝ) ^ 2 by norm_num]
  exact Real.sqrt_sq (by norm_num)

theorem exBoundary_lower : zoneLower exBoundary = 0 := by
  have hm : tempMeanQ exBoundary = 2 := by
    rw [tempMeanQ, show tempVals exBoundary = [0, 0, 2, 4, 4] from rfl,
        show tempCount exBoundary = 5 from rfl]
    norm_num
  rw [zoneLower, hm, exBoundary_std]
  norm_num

theorem exBoundary_upper : zoneUpper exBoundary = 4 := by
  have hm : tempMeanQ exBoundary = 2 := by
    rw [tempMeanQ, show tempVals exBoundary = [0, 0, 2, 4, 4] from rfl,
        show tempCount exBoundary = 5 from rfl]
    norm_num
  rw [zoneUpper, hm, exBoundary_std]
  norm_num

/-- C4 counterexample: on the batch with temperatures `[0,0,2,4,4]`
(mean 2, sample std 2, bin edges 0 and 4) the boundary temperature 0
lies inside the claim's closed Moderate interval `[0, 4]` but the code
assigns it Cold. -/
theorem spec_C4_cex :
    assignZone exBoundary (some 0) = some Zone.Cold ∧
    zoneLower exBoundary ≤ ((0 : ℚ) : ℝ) ∧
    ((0 : ℚ) : ℝ) ≤ zoneUpper exBoundary ∧
    some Zone.Cold ≠ some Zone.Moderate := by
  refine ⟨?_, by rw [exBoundary_lower]; norm_num,
    by rw [exBoundary_upper]; norm_num, by simp⟩
  unfold assignZone
  rw [cutZone_some, exBoundary_lower]
  rw [if_pos (by norm_num)]

/-- C4 witness: the amended boundary characterization applied to the
concrete batch with exact bin edges. -/
theorem spec_C4_witness :
    tempVarQ exBoundary = some 4 ∧ (4 : ℚ) ≠ 0 ∧ exBoundary ≠ [] ∧
    create_weather_zones exBoundary = .ok (czwSuccess exBoundary) ∧
    (assignZone exBoundary (some 0) = some Zone.Cold ↔
      ((0 : ℚ) : ℝ) ≤ zoneLower exBoundary) := by
  have h := spec_C4_amended exBoundary 4 exBoundary_var (by norm_num) (by simp [exBoundary])
  exact ⟨exBoundary_var, by norm_num, by simp [exBoundary], h.1, (h.2 0).1⟩

theorem exFive_var : tempVarQ exFive = some 250 := by
  have hvals : tempVals exFive = [10, 20, 30, 40, 50] := rfl
  have hc : tempCount exFive = 5 := by
    rw [tempCount, hvals]
    rfl
  have hm : tempMeanQ exFive = 30 := by
    rw [tempMeanQ, hvals, hc]
    norm_num
  rw [tempVarQ, if_pos (by rw [hc]; norm_num), hvals, hc, hm]
  norm_num

theorem exFive_std_gt : (15 : ℝ) < tempStdR exFive := by
  rw [tempStdR, exFive_var]
  simp only [Option.getD_some]
  rw [show (((250 : ℚ)) : ℝ) = (250 : ℝ) by norm_num]
  exact (Real.lt_sqrt (by norm_num)).mpr (by norm_num)

theorem exFive_std_lt : tempStdR exFive < 16 := by
  rw [tempStdR, exFive_var]
  simp only [Option.getD_some]
  rw [show (((250 : ℚ)) : ℝ) = (250 : ℝ) by norm_num]
  exact (Real.sqrt_lt' (by norm_num)).mpr (by norm_num)

theorem exFive_lower : zoneLower exFive = 30 - tempStdR exFive := by
  rw [zoneLower, show tempMeanQ exFive = 30 from by
    rw [tempMeanQ, show tempVals exFive = [10, 20, 30, 40, 50] from rfl,
        show tempCount exFive = 5 from rfl]
    norm_num]
  norm_num

theorem exFive_upper : zoneUpper exFive = 30 + tempStdR exFive := by
  rw [zoneUpper, show tempMeanQ exFive = 30 from by
    rw [tempMeanQ, show tempVals exFive = [10, 20, 30, 40, 50] from rfl,
        show tempCount exFive = 5 from rfl]
    norm_num]
  norm_num

/-- C5 counterexample: on the `[10,20,30,40,50]` batch the code's
`.std()` is the sample standard deviation `sqrt(250) ≈ 15.81`, not the
population value `≈ 14.14` the claim states, so the lower threshold is
below 15 (not `≈ 15.86`) and the upper threshold is above 45 (not
`≈ 44.14`). -/
theorem spec_C5_cex :
    zoneLower exFive < 15 ∧ 45 < zoneUpper exFive := by
  rw [exFive_lower, exFive_upper]
  constructor <;> linarith [exFive_std_gt]

/-- C5: on the `[10,20,30,40,50]` batch classification uses the
sample standard deviation `sqrt(250)` (thresholds `30 ∓ sqrt(250)`,
about 14.19 and 45.81), and assigns 10 to Cold, 20, 30, 40 to
Moderate and 50 to Warm — the zone outcome the spec states, under the
corrected thresholds (amended claim proved here). -/
theorem spec_C5_amended :
    tempVarQ exFive = some 250 ∧
    create_weather_zones exFive = .ok (czwSuccess exFive) ∧
    (czwSuccess exFive).1.map (·.temp_zone) =
      [some (some Zone.Cold), some (some Zone.Moderate), some (some Zone.Moderate),
       some (some Zone.Moderate), some (some Zone.Warm)] := by
  have hlb := exFive_std_gt
  have hub := exFive_std_lt
  refine ⟨exFive_var, ?_, ?_⟩
  · rw [create_weather_zones, if_neg (by simp [exFive]), exFive_var]
    show (if (250 : ℚ) = 0 then Except.error PyError.valueError
          else Except.ok (czwSuccess exFive)) = Except.ok (czwSuccess exFive)
    rw [if_neg (by norm_num)]
  · have a10 : assignZone exFive (some 10) = some Zone.Cold := by
      unfold assignZone
      rw [cutZone_some, exFive_lower]
      rw [if_pos (by push_cast; linarith)]
    have a20 : assignZone exFive (some 20) = some Zone.Moderate := by
      unfold assignZone
      rw [cutZone_some, exFive_lower, exFive_upper]
      rw [if_neg (by rw [not_le]; push_cast; linarith),
          if_pos (by push_cast; linarith)]
    have a30 : assignZone exFive (some 30) = some Zone.Moderate := by
      unfold assignZone
      rw [cutZone_some, exFive_lower, exFive_upper]
      rw [if_neg (by rw [not_le]; push_cast; linarith),
          if_pos (by push_cast; linarith)]
    have a40 : assignZone exFive (some 40) = some Zone.Moderate := by
      unfold assignZone
      rw [cutZone_some, exFive_lower, exFive_upper]
      rw [if_neg (by rw [not_le]; push_cast; linarith),
          if_pos (by push_cast; linarith)]
    have a50 : assignZone exFive (some 50) = some Zone.Warm := by
      unfold assignZone
      rw [cutZone_some, exFive_lower, exFive_upper]
      rw [if_neg (by rw [not_le]; push_cast; linarith),
          if_neg (by rw [not_le]; push_cast; linarith)]
    have hms : (czwSuccess exFive).1.map (·.temp_zone) =
        [some (assignZone exFive (some 10)), some (assignZone exFive (some 20)),
         some (assignZone exFive (some 30)), some (assignZone exFive (some 40)),
         some (assignZone exFive (some 50))] := rfl
    rw [hms, a10, a20, a30, a40, a50]

theorem cw_gradients_get (df : List Row) (h2 : 2 ≤ df.length) (i : ℕ)
    (hi : i < df.length) :
    (calculate_weather_gradients df).getD i default =
      { rowAt df i with temperature_gradient := some (gradVal df i) } := by
  rw [calculate_weather_gradients, if_neg (by omega)]
  have hlen : i < (df.enum.map (fun p =>
      ({ p.2 with temperature_gradient := some (gradVal df p.1) } : Row))).length := by
    rw [List.length_map, List.enum_length]
    exact hi
  rw [List.getD_eq_getElem _ _ hlen, List.getElem_map, List.getElem_enum]
  rw [rowAt, List.getD_eq_getElem _ _ hi]

/-- C7: in gradient estimation, an observation whose mean distance to
its selected nearest neighbors is exactly 0 receives gradient 0 — the
zero-distance guard replaces the division regardless of the
temperature difference. -/
theorem spec_C7 :
    ∀ (df : List Row) (i : ℕ), 2 ≤ df.length → i < df.length →
      meanDist df i = 0 →
      ((calculate_weather_gradients df).getD i default).temperature_gradient =
        some (some 0) := by
  intro df i h2 hi hd
  rw [cw_gradients_get df h2 i hi]
  show some (gradVal df i) = some (some 0)
  unfold gradVal
  by_cases hne : (neighbors df i).isEmpty
  · rw [if_pos hne]
  · rw [if_neg hne, if_neg (by rw [hd]; exact lt_irrefl 0)]

theorem wCoincident_d00 : distRow wCoincident 0 0 = 0 := by
  simp [distRow, distR, rowAt, wCoincident, exRow]

theorem wCoincident_d01 : distRow wCoincident 0 1 = 0 := by
  simp [distRow, distR, rowAt, wCoincident, exRow]

theorem wCoincident_neighbors : neighbors wCoincident 0 = [1] := by
  have hins1 : sortedInsert (distRow wCoincident 0) 1 [] = [1] := rfl
  have hins0 : sortedInsert (distRow wCoincident 0) 0 [1] = [0, 1] := by
    unfold sortedInsert
    rw [if_pos (Or.inr ⟨wCoincident_d00.trans wCoincident_d01.symm, Nat.zero_le 1⟩)]
  unfold neighbors argsortIdx
  rw [show List.range wCoincident.length = [0, 1] from rfl]
  rw [List.foldr_cons, List.foldr_cons, List.foldr_nil, hins1, hins0]
  rfl

theorem wCoincident_meanDist : meanDist wCoincident 0 = 0 := by
  rw [meanDist, wCoincident_neighbors]
  simp [wCoincident_d01]

/-- C7 witness: two coincident observations with different
temperatures; the first one's mean neighbor distance is 0 and its
gradient is the literal 0. -/
theorem spec_C7_witness :
    2 ≤ wCoincident.length ∧ 0 < wCoincident.length ∧
    meanDist wCoincident 0 = 0 ∧
    ((calculate_weather_gradients wCoincident).getD 0 default).temperature_gradient =
      some (some 0) :=
  ⟨by simp [wCoincident], by simp [wCoincident], wCoincident_meanDist,
   spec_C7 wCoincident 0 (by simp [wCoincident]) (by simp [wCoincident])
     wCoincident_meanDist⟩

/-- C10: in gradient estimation over a batch of at least 2 rows, an
observation with missing temperature and strictly positive mean
neighbor distance receives a missing (`NaN`) gradient, not 0:
missing-ness propagates through the difference and the division. -/
theorem spec_C10 :
    ∀ (df : List Row) (i : ℕ), 2 ≤ df.length → i < df.length →
      (rowAt df i).temperature = none → 0 < meanDist df i →
      ((calculate_weather_gradients df).getD i default).temperature_gradient =
        some none := by
  intro df i h2 hi ht hpos
  rw [cw_gradients_get df h2 i hi]
  show some (gradVal df i) = some none
  unfold gradVal
  have hne : (neighbors df i).isEmpty = false := by
    cases hnn : neighbors df i with
    | nil =>
        rw [meanDist, hnn] at hpos
        simp at hpos
    | cons a l => rfl
  rw [if_neg (by rw [hne]; exact Bool.false_ne_true), if_pos hpos]
  rw [tempDiff, ht]
  rfl

theorem wMissing_d00 : distRow wMissing 0 0 = 0 := by
  simp [distRow, distR, rowAt, wMissing, exRow]

theorem wMissing_d01 : distRow wMissing 0 1 = 1 := by
  have h : ((((0 : ℚ) - 1 : ℚ)) : ℝ) ^ 2 = 1 := by
    push_cast
    norm_num
  simp [distRow, distR, rowAt, wMissing, exRow, h]

theorem wMissing_neighbors : neighbors wMissing 0 = [1] := by
  have hins1 : sortedInsert (distRow wMissing 0) 1 [] = [1] := rfl
  have hins0 : sortedInsert (distRow wMissing 0) 0 [1] = [0, 1] := by
    unfold sortedInsert
    rw [if_pos (Or.inl (by rw [wMissing_d00, wMissing_d01]; norm_num))]
  unfold neighbors argsortIdx
  rw [show List.range wMissing.length = [0, 1] from rfl]
  rw [List.foldr_cons, List.foldr_cons, List.foldr_nil, hins1, hins0]
  rfl

theorem wMissing_meanDist : meanDist wMissing 0 = 1 := by
  rw [meanDist, wMissing_neighbors]
  simp [wMissing_d01]

/-- C10 witness: a missing-temperature observation one degree away
from a temperature-bearing one; its gradient is the missing marker,
not 0. -/
theorem spec_C10_witness :
    2 ≤ wMissing.length ∧ 0 < wMissing.length ∧
    (rowAt wMissing 0).temperature = none ∧ 0 < meanDist wMissing 0 ∧
    ((calculate_weather_gradients wMissing).getD 0 default).temperature_gradient =
      some none := by
  have hpos : 0 < meanDist wMissing 0 := by
    rw [wMissing_meanDist]
    norm_num
  exact ⟨by simp [wMissing], by simp [wMissing], rfl, hpos,
    spec_C10 wMissing 0 (by simp [wMissing]) (by simp [wMissing]) rfl hpos⟩

end HyperWeather
